import Mathlib

/-!
Shallow embedding of the CSV→PostgreSQL extractor backend
(`data_extractor.py`, `main.py`, `app/app.py`).

Strings are modelled as lists of code points (`List Nat`), the ASCII
fragment of the Python `str` semantics: `str.strip` / `str.lower` /
`str.isalnum` are embedded for the ASCII range, which covers every input
appearing in the claims.
-/

namespace Backend

/-- Code points of a Lean string literal, for writing concrete examples. -/
def codes (s : String) : List Nat := s.data.map Char.toNat

/-- ASCII fragment of the whitespace set stripped by Python `str.strip()`:
space, tab, LF, CR, VT, FF. -/
def pyIsSpace (n : Nat) : Bool :=
  n = 32 || n = 9 || n = 10 || n = 13 || n = 11 || n = 12

/-- ASCII fragment of Python `str.lower()` applied per character. -/
def pyToLower (n : Nat) : Nat :=
  if 65 ≤ n ∧ n ≤ 90 then n + 32 else n

/-- ASCII fragment of Python `str.isalnum()` on a single character:
digits `0-9`, letters `A-Z` and `a-z`. -/
def pyIsAlnum (n : Nat) : Bool :=
  (48 ≤ n && n ≤ 57) || (65 ≤ n && n ≤ 90) || (97 ≤ n && n ≤ 122)

/-- Python `str.strip()` on a code-point list: drop leading and trailing
whitespace. -/
def pyStrip (l : List Nat) : List Nat :=
  ((l.dropWhile pyIsSpace).reverse.dropWhile pyIsSpace).reverse

/-- The per-character replacement of `data_extractor.py:86`:
keep the character when `c.isalnum()` holds or it is the underscore 95, else replace it by the underscore 95. -/
def sanitizeChar (n : Nat) : Nat :=
  if pyIsAlnum n || n = 95 then n else 95

/-- Embedding of `CSVtoPostgresExtractor._sanitize_columns` (`data_extractor.py:81-88`),
applied to one column name: `col.strip().lower()` followed by the
per-character replacement. -/
def sanitizeColumn (l : List Nat) : List Nat :=
  ((pyStrip l).map pyToLower).map sanitizeChar

/-- The map `_sanitize_columns` applied to the whole header row: the loop at
`data_extractor.py:83-88` sanitizes each column name independently. -/
def sanitizeColumns (names : List (List Nat)) : List (List Nat) :=
  names.map sanitizeColumn

/-- The legacy sanitization of `main.py:122` and `main.py:168`:
every space (32) is replaced by an underscore (95) — no other character
is touched — and the result is lower-cased. -/
def sanitizeColumnMain (l : List Nat) : List Nat :=
  (l.map (fun n => if n = 32 then 95 else n)).map pyToLower

/-! ### Type inference (`pd.read_csv` dtype inference + the `type_map` of
`data_extractor.py:99-105` / `main.py:111-117`)

The code delegates column typing to pandas: `pd.read_csv` assigns each
column a dtype, and `create_table` maps the string of that dtype through
`type_map` with the default `TEXT`.  `PDtype` below models the dtypes
`read_csv` can assign to a text column with default options, plus an
`other` constructor standing for any further dtype string reaching the
`type_map.get` fallback to `TEXT`. -/

/-- A pandas dtype as observed by `create_table` via `str(dtype)`. -/
inductive PDtype where
  | int64
  | uint64
  | float64
  | bool
  | datetime64
  | object
  | other (s : List Nat)
deriving DecidableEq

/-- The `type_map` dictionary of `data_extractor.py:99-105`
(`main.py:111-117` is the same mapping), as a partial map.  `uint64` is
not a key of the dictionary, so it falls to the `TEXT` default below. -/
def type_map : PDtype → Option String
  | .int64 => some ("INTEGER")
  | .float64 => some ("NUMERIC")
  | .object => some ("TEXT")
  | .bool => some ("BOOLEAN")
  | .datetime64 => some ("TIMESTAMP")
  | .uint64 => none
  | .other _ => none

/-- Embedding of the lookup `type_map.get` with default `TEXT` — the store type chosen for a
dtype, with `TEXT` as the fallback (`data_extractor.py:108`). -/
def storeType (d : PDtype) : String :=
  (type_map d).getD ("TEXT")

/-- The type part of one column declaration in the generated
`CREATE TABLE` statement. -/
inductive SqlColType where
  /-- A plain store type produced by `type_map` (`INTEGER`, `NUMERIC`, …). -/
  | plain (t : String)
  /-- The `SERIAL PRIMARY KEY` form — the auto-incrementing surrogate key. -/
  | serialPrimaryKey
  /-- The `TIMESTAMP DEFAULT CURRENT_TIMESTAMP` form — the import timestamp. -/
  | timestampDefaultNow
deriving DecidableEq

/-- One column declaration (`name type`) of the `CREATE TABLE` statement. -/
structure ColumnDecl where
  name : List Nat
  ty : SqlColType
deriving DecidableEq

/-- The `id SERIAL PRIMARY KEY` declaration hard-coded at the front of the
statement template (`data_extractor.py:113`, `main.py:133`). -/
def idColumn : ColumnDecl := ⟨codes ("id"), .serialPrimaryKey⟩

/-- The `import_date TIMESTAMP DEFAULT CURRENT_TIMESTAMP` declaration at
the end of the statement template (`data_extractor.py:113`, `main.py:135`). -/
def importDateColumn : ColumnDecl := ⟨codes ("import_date"), .timestampDefaultNow⟩

/-- A column of the in-memory DataFrame as `create_table` sees it:
sanitized name plus pandas dtype. -/
structure DfColumn where
  name : List Nat
  dtype : PDtype
deriving DecidableEq

/-- The `cols_defs` loop of `data_extractor.py:106-111`: one declaration
per DataFrame column, in DataFrame order, typed through `type_map` with
the `TEXT` fallback. -/
def colsDefs (dataCols : List DfColumn) : List ColumnDecl :=
  dataCols.map (fun c => ⟨c.name, .plain (storeType c.dtype)⟩)

/-- Column-declaration list of the generated statement
`CREATE TABLE IF NOT EXISTS t (id SERIAL PRIMARY KEY, ..cols..,
import_date TIMESTAMP DEFAULT CURRENT_TIMESTAMP)`
(`data_extractor.py:113-117`, `main.py:131-137`). -/
def createStatementColumns (dataCols : List DfColumn) : List ColumnDecl :=
  idColumn :: colsDefs dataCols ++ [importDateColumn]

/-- The catalog of the relational store: the tables that exist, each with its
name and declared columns. -/
abbrev Catalog := List (List Nat × List ColumnDecl)

/-- Number of tables named `name` in the catalog. -/
def tableCount (name : List Nat) (db : Catalog) : Nat :=
  (db.filter (fun t => t.1 = name)).length

/-- Executing the generated `CREATE TABLE IF NOT EXISTS` statement against
the store: PostgreSQL creates the table only when no table of that name
exists, and otherwise succeeds without touching the catalog.  Returns the
success flag that `create_table` returns (`data_extractor.py:113-122`). -/
def createTable (name : List Nat) (dataCols : List DfColumn) (db : Catalog) :
    Bool × Catalog :=
  if db.any (fun t => t.1 = name) then (true, db)
  else (true, db ++ [(name, createStatementColumns dataCols)])

/-! ### Bulk loading

`main.py:152-201` (`save_to_database`, chunked `executemany` with
`batch_size = 1000` and a commit per batch) and `data_extractor.py:128-155`
(`bulk_insert`, one `COPY … FROM STDIN` followed by a single commit).
The store is modelled as the list of persisted rows plus a predicate
saying which rows it rejects; rejecting any row of a statement makes that
statement raise, and `rollback` discards everything since the last
commit. -/

/-- The `batch_size = 1000` of `main.py:186`. -/
def batchSize : Nat := 1000

/-- One pass of the batch loop of `main.py:187-191`, starting at offset
`i`: `values[i:i+batch_size]` is inserted with one `executemany` and
committed; an exception rolls back the uncommitted batch and
`save_to_database` returns `False`, leaving earlier commits in place.
Returns the success flag and the persisted rows.  `fuel` is the number of
remaining loop iterations (the Python loop runs `⌈n/1000⌉` times). -/
def batchLoop (rejects : List Nat → Bool) (values : List (List Nat))
    (fuel : Nat) (i : Nat) (store : List (List Nat)) :
    Bool × List (List Nat) :=
  match fuel with
  | 0 => (true, store)
  | fuel + 1 =>
    let batch := (values.drop i).take batchSize
    if batch.any rejects then (false, store)
    else batchLoop rejects values fuel (i + batchSize) (store ++ batch)

/-- Embedding of `save_to_database` (`main.py:152-201`): the rows are partitioned into
batches of 1000 and inserted batch by batch, committing per batch; the
returned value is only the success flag of the Python function — row
counts appear in log lines, never in the return value. -/
def save_to_database (rejects : List Nat → Bool) (values : List (List Nat))
    (store : List (List Nat)) : Bool × List (List Nat) :=
  batchLoop rejects values ((values.length + batchSize - 1) / batchSize) 0 store

/-- Embedding of `bulk_insert` (`data_extractor.py:128-155`): one `COPY` statement for
all rows, then one commit; any rejected row aborts the whole `COPY` and
the rollback leaves the store unchanged. -/
def bulk_insert (rejects : List Nat → Bool) (values : List (List Nat))
    (store : List (List Nat)) : Bool × List (List Nat) :=
  if values.any rejects then (false, store) else (true, store ++ values)

/-! ### Fetching (`fetch_csv`, `data_extractor.py:65-79`;
`fetch_csv_data`, `main.py:57-88`) -/

/-- Outcome of the `requests.get` call as observed by the code: the final
response (status and body), or a timeout / connection-level exception. -/
inductive HttpOutcome where
  | timeout
  | connectionError
  | response (status : Nat) (body : List Nat)

/-- The parsed tabular dataset: header row plus data rows. -/
structure Dataset where
  header : List (List Nat)
  rows : List (List (List Nat))
deriving DecidableEq

/-- Split a code-point list at a separator (used for lines and fields). -/
def splitOn (sep : Nat) (l : List Nat) : List (List Nat) :=
  l.foldr (fun n acc =>
    match acc with
    | [] => if n = sep then [[], []] else [[n]]
    | cur :: rest => if n = sep then [] :: cur :: rest else (n :: cur) :: rest) []

/-- Embedding of `pd.read_csv` on the response body, reduced to what the claims need:
the first line is the header; every data line must have exactly as many
comma-separated fields as the header (`ParserError` otherwise, modelled as
`none`); an empty body raises `EmptyDataError`, also `none`.  The model
is restricted to the equal-field-count region: pandas pads rows with
fewer fields than the header with `NaN` where this model returns `none`;
no theorem below touches that region. -/
def readCsv (body : List Nat) : Option Dataset :=
  match (splitOn 10 body).filter (fun line => line ≠ []) with
  | [] => none
  | headerLine :: dataLines =>
    let header := splitOn 44 headerLine
    let rows := dataLines.map (splitOn 44)
    if rows.all (fun r => r.length = header.length) then
      some ⟨header, rows⟩
    else none

/-- The method `requests.Response.raise_for_status()` raises `HTTPError` exactly for
client and server error statuses, i.e. `400 ≤ status < 600`; informational
and redirect-class final statuses do not raise. -/
def raisesForStatus (status : Nat) : Bool :=
  400 ≤ status && status < 600

/-- Embedding of `fetch_csv` (`data_extractor.py:65-79`): on any exception — connection
failure, timeout, `raise_for_status`, or CSV parsing — the handler returns
`False` and `self.df` is never assigned; on success `self.df` receives the
parsed dataset and the method returns `True`.  The first component is the
returned flag, the second the value of `self.df` after the call, given its
value `df0` before the call. -/
def fetch_csv (outcome : HttpOutcome) (df0 : Option Dataset) :
    Bool × Option Dataset :=
  match outcome with
  | .timeout => (false, df0)
  | .connectionError => (false, df0)
  | .response status body =>
    if raisesForStatus status then (false, df0)
    else
      match readCsv body with
      | none => (false, df0)
      | some d => (true, some d)

/-- The keyword arguments of the `requests.get` call in
`fetch_csv` (`data_extractor.py:71`): `timeout=30` is passed. -/
def fetchTimeout_extractor : Option Nat := some 30

/-- The keyword arguments of the `requests.get` call in
`fetch_csv_data` (`main.py:66`): no `timeout` argument is passed, so the
`requests` default of no timeout applies. -/
def fetchTimeout_main : Option Nat := none

/-! ### Pipeline driver (`main`, `data_extractor.py:164-181`;
`main`, `main.py:212-256`) -/

/-- The observable actions of one pipeline run. -/
inductive Step where
  | connect
  | fetch
  | createTable
  | bulkInsert
  | close
deriving DecidableEq

/-- Trace of `main` (`data_extractor.py:164-181`), given which steps
succeed: `connect` runs first and a failure returns before the `try`
block, so `close` is not reached (no connection was acquired); once inside
the `try`, each failing step returns early and the `finally` clause runs
`extractor.close()` exactly once on every path.  `main` in
`main.py:212-256` has the same structure. -/
def mainTrace (connectOk fetchOk createOk insertOk : Bool) : List Step :=
  if !connectOk then [.connect]
  else
    .connect ::
      (if !fetchOk then [.fetch]
       else if !createOk then [.fetch, .createTable]
       else if !insertOk then [.fetch, .createTable, .bulkInsert]
       else [.fetch, .createTable, .bulkInsert]) ++ [.close]

/-- The `requests.get` outcomes on which `fetch_csv` takes an exception
path before `self.df` is assigned: timeout, connection failure, or a
status that `raise_for_status` rejects. -/
def isFetchFailure : HttpOutcome → Bool
  | .timeout => true
  | .connectionError => true
  | .response status _ => raisesForStatus status

/-- Column names used by `create_table`: it calls `_sanitize_columns`
first (`data_extractor.py:98`), so the declared data columns carry the
sanitized names, and `self.df.columns` is left holding them. -/
def createTableColumnNames (cols : List (List Nat)) : List (List Nat) :=
  sanitizeColumns cols

/-- Column names used by `bulk_insert`: it runs on the DataFrame left by
`create_table` and calls `_sanitize_columns` again
(`data_extractor.py:136`) before building the `COPY` column list. -/
def bulkInsertColumnNames (cols : List (List Nat)) : List (List Nat) :=
  sanitizeColumns (createTableColumnNames cols)

/-! ### Concrete load scenario of §8: 2,500 rows, batch size 1,000 -/

/-- A clean batch of 1,000 rows (row content is irrelevant to the loader;
only the accept/reject behavior of the store matters). -/
def cleanBatch : List (List Nat) := List.replicate 1000 [0]

/-- The last 500 rows, among which row `[1]` (at overall position 2,100)
is the one the store rejects in the third batch. -/
def tailRows : List (List Nat) :=
  List.replicate 100 [0] ++ [1] :: List.replicate 399 [0]

/-- A 2,500-row dataset: two clean batches of 1,000 and a final 500. -/
def rows2500 : List (List Nat) := (cleanBatch ++ cleanBatch) ++ tailRows

/-- Store behavior rejecting exactly row `[1]`, which sits in the third
batch of `rows2500`. -/
def rejectsThirdBatch (r : List Nat) : Bool := decide (r = [1])

/-- Store behavior rejecting the rows `[0]` that fill the first batch of
`rows2500`. -/
def rejectsFirstBatch (r : List Nat) : Bool := decide (r = [0])

/-! ## Helper lemmas about sanitization -/

theorem dropWhile_eq_self_of (p : Nat → Bool) (l : List Nat)
    (h : ∀ n ∈ l, p n = false) : l.dropWhile p = l := by
  cases l with
  | nil => rfl
  | cons a l => simp [List.dropWhile_cons, h a (by simp)]

theorem pyStrip_eq_self (l : List Nat) (h : ∀ n ∈ l, pyIsSpace n = false) :
    pyStrip l = l := by
  unfold pyStrip
  rw [dropWhile_eq_self_of _ _ h,
    dropWhile_eq_self_of _ _ (fun n hn => h n (by simpa using hn)),
    List.reverse_reverse]

theorem map_eq_self_of {α : Type} (f : α → α) (l : List α)
    (h : ∀ n ∈ l, f n = n) : l.map f = l := by
  induction l with
  | nil => rfl
  | cons a l ih => simp [h a (by simp), ih (fun n hn => h n (by simp [hn]))]

/-- Every character produced by the sanitizing map is a non-whitespace
fixed point of lower-casing and of the sanitizing replacement. -/
theorem sanitizeChar_pyToLower_props (n : Nat) :
    pyIsSpace (sanitizeChar (pyToLower n)) = false ∧
    pyToLower (sanitizeChar (pyToLower n)) = sanitizeChar (pyToLower n) ∧
    sanitizeChar (sanitizeChar (pyToLower n)) = sanitizeChar (pyToLower n) := by
  unfold pyToLower sanitizeChar pyIsAlnum pyIsSpace
  split_ifs <;> simp_all <;> omega

/-- Members of a sanitized name are of the shape the sanitizing map
produces. -/
theorem mem_sanitizeColumn (l : List Nat) (m : Nat)
    (hm : m ∈ sanitizeColumn l) : ∃ n, m = sanitizeChar (pyToLower n) := by
  unfold sanitizeColumn at hm
  rcases List.mem_map.mp hm with ⟨a, ha, rfl⟩
  rcases List.mem_map.mp ha with ⟨n, _, rfl⟩
  exact ⟨n, rfl⟩

/-- A name all of whose characters are already in sanitized form is a
fixed point of `sanitizeColumn`. -/
theorem sanitizeColumn_fixpoint (l : List Nat)
    (h : ∀ m ∈ l, pyIsSpace m = false ∧ pyToLower m = m ∧ sanitizeChar m = m) :
    sanitizeColumn l = l := by
  unfold sanitizeColumn
  rw [pyStrip_eq_self l (fun n hn => (h n hn).1),
    map_eq_self_of _ _ (fun n hn => (h n hn).2.1),
    map_eq_self_of _ _ (fun n hn => (h n hn).2.2)]

theorem sanitizeColumn_idem (l : List Nat) :
    sanitizeColumn (sanitizeColumn l) = sanitizeColumn l := by
  apply sanitizeColumn_fixpoint
  intro m hm
  rcases mem_sanitizeColumn l m hm with ⟨n, rfl⟩
  exact sanitizeChar_pyToLower_props n

theorem sanitizeColumns_idem (names : List (List Nat)) :
    sanitizeColumns (sanitizeColumns names) = sanitizeColumns names := by
  unfold sanitizeColumns
  rw [List.map_map]
  exact List.map_congr_left fun l _ => sanitizeColumn_idem l

/-- Every character a sanitized name can contain is alphanumeric or the
underscore 95. -/
theorem sanitizeChar_shape (n : Nat) :
    pyIsAlnum (sanitizeChar n) = true ∨ sanitizeChar n = 95 := by
  unfold sanitizeChar
  split
  · next h =>
    rcases Bool.or_eq_true_iff.mp h with h' | h'
    · exact Or.inl h'
    · exact Or.inr (by simpa using h')
  · exact Or.inr rfl

/-! ## Claim theorems -/

/-- Claim C2, counterexample.  The claim describes the sanitizer as
"replacing every character that is not alphanumeric or underscore with an
underscore" and asserts the sanitized example header contains no
punctuation other than underscores; but the sanitization performed by
`create_table_if_not_exists` / `save_to_database` in `main.py`
(replace spaces, lower-case; `main.py:122` and `main.py:168`) keeps
the parenthesis `(` (code 40), so the claim fails on that cited code. -/
theorem C2_counterexample :
    40 ∈ sanitizeColumnMain (codes ("Crude Birth Rate (per 1,000 people)")) ∧
    ¬ (∀ m ∈ sanitizeColumnMain (codes ("Crude Birth Rate (per 1,000 people)")),
        pyIsAlnum m = true ∨ m = 95) := by
  decide

/-- Claim C2, amended.  The sanitizer of `data_extractor.py:81-88`
(`_sanitize_columns`) does satisfy the claim: every character of a
sanitized name is alphanumeric or an underscore, is not whitespace, and is
not an upper-case letter, and the example header sanitizes to
`crude_birth_rate__per_1_000_people_`; the legacy sanitizer of `main.py`
only replaces spaces and lower-cases, so punctuation other than
underscores can survive there. -/
theorem C2_amended :
    (∀ l : List Nat, ∀ m ∈ sanitizeColumn l,
      (pyIsAlnum m = true ∨ m = 95) ∧ pyIsSpace m = false ∧ pyToLower m = m) ∧
    sanitizeColumn (codes ("Crude Birth Rate (per 1,000 people)")) =
      codes ("crude_birth_rate__per_1_000_people_") := by
  constructor
  · intro l m hm
    rcases mem_sanitizeColumn l m hm with ⟨n, rfl⟩
    exact ⟨sanitizeChar_shape (pyToLower n),
      (sanitizeChar_pyToLower_props n).1, (sanitizeChar_pyToLower_props n).2.1⟩
  · decide

/-- Claim C2, witness for the amended theorem at the concrete name `"A b"`,
whose sanitized form `a_b` contains the character `a` (97). -/
theorem C2_witness :
    (pyIsAlnum 97 = true ∨ (97 : Nat) = 95) ∧
      pyIsSpace 97 = false ∧ pyToLower 97 = 97 :=
  C2_amended.1 (codes ("A b")) 97 (by decide)

/-- Claim C9, counterexample.  The original names `"a b"` and `"a_b"` are
distinct, yet `_sanitize_columns` maps both to `a_b`: the sanitizer
performs no collision resolution and emits duplicate identifiers, so the
claim fails. -/
theorem C9_counterexample :
    codes ("a b") ≠ codes ("a_b") ∧
    sanitizeColumns [codes ("a b"), codes ("a_b")] = [codes ("a_b"), codes ("a_b")] := by
  decide

/-- Claim C9, amended.  Sanitization maps each name independently with no
collision handling, so distinct originals may collide; pairwise
distinctness is preserved exactly when the sanitized forms are pairwise
distinct — in particular for names already in sanitized form. -/
theorem C9_amended (names : List (List Nat))
    (hfix : ∀ n ∈ names, sanitizeColumn n = n)
    (hdist : names.Pairwise (· ≠ ·)) :
    (sanitizeColumns names).Pairwise (· ≠ ·) := by
  unfold sanitizeColumns
  rw [map_eq_self_of _ _ hfix]
  exact hdist

/-- Claim C9, witness for the amended theorem on the already-sanitized
distinct names `ab` and `cd`. -/
theorem C9_witness :
    (sanitizeColumns [codes ("ab"), codes ("cd")]).Pairwise (· ≠ ·) :=
  C9_amended [codes ("ab"), codes ("cd")] (by decide) (by decide)

/-- Claim C10.  Sanitization is idempotent on every list of column names;
consequently `bulk_insert`, which re-runs `_sanitize_columns` on the
DataFrame already sanitized by `create_table` (`data_extractor.py:98`
and `data_extractor.py:136`), builds its `COPY` column list from exactly
the column names, in the same order, that `create_table` declared. -/
theorem C10_sanitize_idempotent (cols : List (List Nat)) :
    sanitizeColumns (sanitizeColumns cols) = sanitizeColumns cols ∧
    bulkInsertColumnNames cols = createTableColumnNames cols := by
  refine ⟨sanitizeColumns_idem cols, ?_⟩
  unfold bulkInsertColumnNames createTableColumnNames
  exact sanitizeColumns_idem cols

/-! ## Helper lemmas about type inference -/

/-- Claim C3.  Provisioning executes `CREATE TABLE IF NOT EXISTS`: it
mutates the catalog only when no table of that name exists, a second run
against the same definition succeeds without mutating the catalog, and
starting from a catalog without the table, exactly one table of that name
exists after both runs. -/
theorem C3_idempotent_provisioning (name : List Nat) (dataCols : List DfColumn)
    (db : Catalog) :
    (createTable name dataCols db).1 = true ∧
    createTable name dataCols (createTable name dataCols db).2 =
      (true, (createTable name dataCols db).2) ∧
    (tableCount name db = 0 →
      tableCount name
        (createTable name dataCols (createTable name dataCols db).2).2 = 1) := by
  unfold createTable
  by_cases h : db.any (fun t => t.1 = name) = true
  · rw [if_pos h]
    refine ⟨rfl, by rw [if_pos h], ?_⟩
    intro h0
    exfalso
    rcases List.any_eq_true.mp h with ⟨t, ht, hname⟩
    have : t ∈ db.filter (fun t => t.1 = name) :=
      List.mem_filter.mpr ⟨ht, hname⟩
    have := List.length_pos.mpr (List.ne_nil_of_mem this)
    unfold tableCount at h0
    omega
  · rw [if_neg h]
    have hsecond :
        (db ++ [(name, createStatementColumns dataCols)]).any
          (fun t => t.1 = name) = true := by
      apply List.any_eq_true.mpr
      exact ⟨(name, createStatementColumns dataCols), by simp, by simp⟩
    refine ⟨rfl, by rw [if_pos hsecond], ?_⟩
    intro h0
    rw [if_pos hsecond]
    unfold tableCount at h0 ⊢
    rw [List.filter_append]
    rw [List.length_eq_zero.mp h0] at *
    simp [List.length_eq_zero.mp h0]

/-- Claim C3, witness: provisioning an empty catalog twice leaves exactly
one table. -/
theorem C3_witness :
    tableCount (codes ("t"))
      (createTable (codes ("t")) []
        (createTable (codes ("t")) [] ([] : Catalog)).2).2 = 1 :=
  (C3_idempotent_provisioning (codes ("t")) [] []).2.2 (by decide)

/-- Claim C5, counterexample.  The generated statement does not append both
synthetic columns after the data columns: `id SERIAL PRIMARY KEY` is
written first, before the data columns
(`data_extractor.py:113`, `main.py:131-137`), so for the single data
column `entity` the declared order differs from the claimed
"data columns then the two synthetic columns". -/
theorem C5_counterexample :
    createStatementColumns [⟨codes ("entity"), .object⟩] ≠
      colsDefs [⟨codes ("entity"), .object⟩] ++ [idColumn, importDateColumn] := by
  decide

/-- Claim C5, amended.  The statement declares the surrogate identity
column first, then every inferred data column in the dataset column
order, and the import-timestamp column last: the identity column is
`SERIAL PRIMARY KEY` (auto-incrementing, owned by the store) and the
timestamp column defaults to the insertion moment. -/
theorem C5_amended (dataCols : List DfColumn) :
    createStatementColumns dataCols =
      idColumn :: (colsDefs dataCols ++ [importDateColumn]) ∧
    (createStatementColumns dataCols).map ColumnDecl.name =
      codes ("id") :: (dataCols.map DfColumn.name ++ [codes ("import_date")]) ∧
    idColumn.ty = .serialPrimaryKey ∧
    importDateColumn.ty = .timestampDefaultNow := by
  refine ⟨rfl, ?_, rfl, rfl⟩
  unfold createStatementColumns colsDefs idColumn importDateColumn
  simp [List.map_map]

/-! ## Helper lemmas about the bulk loader -/

theorem batchLoop_step (rejects : List Nat → Bool) (values : List (List Nat))
    (fuel i : Nat) (store : List (List Nat))
    (h : ((values.drop i).take batchSize).any rejects = false) :
    batchLoop rejects values (fuel + 1) i store =
      batchLoop rejects values fuel (i + batchSize)
        (store ++ (values.drop i).take batchSize) := by
  simp [batchLoop, h]

theorem batchLoop_fail (rejects : List Nat → Bool) (values : List (List Nat))
    (fuel i : Nat) (store : List (List Nat))
    (h : ((values.drop i).take batchSize).any rejects = true) :
    batchLoop rejects values (fuel + 1) i store = (false, store) := by
  simp [batchLoop, h]

theorem batchLoop_clean (rejects : List Nat → Bool) (values : List (List Nat))
    (hcl : ∀ v ∈ values, rejects v = false) :
    ∀ (fuel i : Nat) (store : List (List Nat)),
      batchLoop rejects values fuel i store =
        (true, store ++ (values.drop i).take (fuel * batchSize)) := by
  intro fuel
  induction fuel with
  | zero => intro i store; simp [batchLoop]
  | succ fuel ih =>
    intro i store
    have hno : ((values.drop i).take batchSize).any rejects = false := by
      rcases Bool.eq_false_or_eq_true (((values.drop i).take batchSize).any rejects)
        with hb | hb
      · exfalso
        rcases List.any_eq_true.mp hb with ⟨v, hv, hrej⟩
        have hvmem : v ∈ values :=
          List.mem_of_mem_drop (List.mem_of_mem_take hv)
        rw [hcl v hvmem] at hrej
        exact Bool.noConfusion hrej
      · exact hb
    rw [batchLoop_step rejects values fuel i store hno, ih]
    have hsplit : (values.drop i).take ((fuel + 1) * batchSize) =
        (values.drop i).take batchSize ++
          (values.drop (i + batchSize)).take (fuel * batchSize) := by
      have harith : (fuel + 1) * batchSize = batchSize + fuel * batchSize := by
        ring
      rw [harith, List.take_add]
      congr 2
      rw [List.drop_drop, Nat.add_comm]
    rw [hsplit, List.append_assoc]

theorem save_to_database_clean (rejects : List Nat → Bool)
    (values store : List (List Nat)) (hcl : ∀ v ∈ values, rejects v = false) :
    save_to_database rejects values store = (true, store ++ values) := by
  unfold save_to_database
  rw [batchLoop_clean rejects values hcl]
  rw [List.drop_zero, List.take_of_length_le]
  have h1000 : batchSize = 1000 := rfl
  rw [h1000]
  omega

theorem cleanBatch_length : cleanBatch.length = batchSize := by
  unfold cleanBatch batchSize
  rw [List.length_replicate]

theorem tailRows_length : tailRows.length = 500 := by
  unfold tailRows
  rw [List.length_append, List.length_replicate, List.length_cons,
    List.length_replicate]

theorem rows2500_length : rows2500.length = 2500 := by
  unfold rows2500
  rw [List.length_append, List.length_append, cleanBatch_length,
    tailRows_length]
  rfl

theorem rows2500_assoc : rows2500 = cleanBatch ++ (cleanBatch ++ tailRows) := by
  unfold rows2500
  rw [List.append_assoc]

theorem take_cleanBatch (rest : List (List Nat)) :
    (cleanBatch ++ rest).take batchSize = cleanBatch := by
  rw [← cleanBatch_length, List.take_left]

theorem drop_cleanBatch (rest : List (List Nat)) :
    (cleanBatch ++ rest).drop batchSize = rest := by
  rw [← cleanBatch_length, List.drop_left]

theorem tailRows_take : tailRows.take batchSize = tailRows := by
  apply List.take_of_length_le
  rw [tailRows_length]
  unfold batchSize
  omega

theorem cleanBatch_no_thirdReject :
    cleanBatch.any rejectsThirdBatch = false := by
  rcases Bool.eq_false_or_eq_true (cleanBatch.any rejectsThirdBatch) with hb | hb
  · exfalso
    rcases List.any_eq_true.mp hb with ⟨v, hv, hrej⟩
    rw [List.eq_of_mem_replicate hv] at hrej
    exact Bool.noConfusion hrej
  · exact hb

theorem tailRows_thirdReject : tailRows.any rejectsThirdBatch = true := by
  apply List.any_eq_true.mpr
  refine ⟨[1], ?_, by decide⟩
  unfold tailRows
  exact List.mem_append_right _ (List.mem_cons_self _ _)

/-- Full evaluation of `save_to_database` when the store rejects row `[1]`
of the third batch: the first two batches are committed, the third raises
and is rolled back, and the function returns `False`. -/
theorem save_thirdBatch_eval :
    save_to_database rejectsThirdBatch rows2500 [] =
      (false, cleanBatch ++ cleanBatch) := by
  have hfuel : (rows2500.length + batchSize - 1) / batchSize = 2 + 1 := by
    rw [rows2500_length]; rfl
  unfold save_to_database
  rw [hfuel, rows2500_assoc]
  rw [batchLoop_step _ _ _ _ _ (by
    rw [List.drop_zero, take_cleanBatch]; exact cleanBatch_no_thirdReject)]
  rw [List.drop_zero, take_cleanBatch, List.nil_append, Nat.zero_add]
  rw [batchLoop_step _ _ _ _ _ (by
    rw [drop_cleanBatch, take_cleanBatch]; exact cleanBatch_no_thirdReject)]
  rw [drop_cleanBatch, take_cleanBatch]
  rw [batchLoop_fail _ _ _ _ _ (by
    rw [← List.drop_drop, drop_cleanBatch, drop_cleanBatch, tailRows_take]
    exact tailRows_thirdReject)]

/-- Full evaluation of `save_to_database` when the store rejects the rows
of the first batch: nothing is committed and the function returns
`False`. -/
theorem save_firstBatch_eval :
    save_to_database rejectsFirstBatch rows2500 [] = (false, []) := by
  have hfuel : (rows2500.length + batchSize - 1) / batchSize = 2 + 1 := by
    rw [rows2500_length]; rfl
  unfold save_to_database
  rw [hfuel]
  apply batchLoop_fail
  rw [List.drop_zero, rows2500_assoc, take_cleanBatch]
  apply List.any_eq_true.mpr
  refine ⟨[0], ?_, by decide⟩
  unfold cleanBatch
  exact List.mem_replicate.mpr ⟨by omega, rfl⟩

/-- Claim C4, counterexample.  The returned loader result is only the
success flag of the Python function and carries no row counts: a run of
2,500 rows rejected in the first batch (0 rows persisted) and a run
rejected in the third batch (2,000 rows persisted) return the identical
result `false`, so the result cannot report "rows successfully
persisted", and in the third-batch failure nothing in the result reports
a number strictly between 0 and 2,500. -/
theorem C4_counterexample :
    (save_to_database rejectsFirstBatch rows2500 []).1 =
      (save_to_database rejectsThirdBatch rows2500 []).1 ∧
    (save_to_database rejectsFirstBatch rows2500 []).2.length = 0 ∧
    (save_to_database rejectsThirdBatch rows2500 []).2.length = 2000 := by
  rw [save_firstBatch_eval, save_thirdBatch_eval]
  refine ⟨rfl, rfl, ?_⟩
  rw [List.length_append, cleanBatch_length]
  rfl

/-- Claim C4, amended.  Both strategies return only a success flag; the
persisted row counts are observable in the store state (and in log
lines), not in the returned value: a fully successful chunked run
persists all rows (2,500 of 2,500 in the §8 scenario); a store rejection
in the third batch returns `False` and leaves exactly the 2,000 rows of
the first two committed batches — strictly between 0 and 2,500 — durably
persisted; the streaming `COPY` strategy is all-or-nothing, persisting
every row on success and none on a rejection. -/
theorem C4_amended :
    (∀ (rejects : List Nat → Bool) (values store : List (List Nat)),
      (∀ v ∈ values, rejects v = false) →
      save_to_database rejects values store = (true, store ++ values)) ∧
    (∀ (rejects : List Nat → Bool) (values store : List (List Nat)),
      (∀ v ∈ values, rejects v = false) →
      bulk_insert rejects values store = (true, store ++ values)) ∧
    (save_to_database (fun _ => false) rows2500 []).2.length = 2500 ∧
    (save_to_database rejectsThirdBatch rows2500 []).1 = false ∧
    (save_to_database rejectsThirdBatch rows2500 []).2.length = 2000 ∧
    (0 < 2000 ∧ 2000 < 2500) ∧
    (∀ (rejects : List Nat → Bool) (values store : List (List Nat)),
      values.any rejects = true →
      bulk_insert rejects values store = (false, store)) := by
  refine ⟨save_to_database_clean, ?_, ?_, ?_, ?_, by omega, ?_⟩
  · intro rejects values store hcl
    unfold bulk_insert
    rw [if_neg]
    intro hany
    rcases List.any_eq_true.mp hany with ⟨v, hv, hrej⟩
    rw [hcl v hv] at hrej
    exact Bool.noConfusion hrej
  · rw [save_to_database_clean (fun _ => false) rows2500 [] (fun _ _ => rfl)]
    rw [List.nil_append]
    exact rows2500_length
  · rw [save_thirdBatch_eval]
  · rw [save_thirdBatch_eval]
    rw [List.length_append, cleanBatch_length]
    rfl
  · intro rejects values store hany
    unfold bulk_insert
    rw [if_pos hany]

/-- Claim C4, witness for the amended theorem: a clean two-row chunked load
and a clean two-row `COPY` load both persist both rows. -/
theorem C4_witness :
    save_to_database (fun _ => false) [[7], [8]] [] = (true, [] ++ [[7], [8]]) ∧
    bulk_insert (fun _ => false) [[7], [8]] [] = (true, [] ++ [[7], [8]]) :=
  ⟨C4_amended.1 (fun _ => false) [[7], [8]] [] (fun _ _ => rfl),
   C4_amended.2.1 (fun _ => false) [[7], [8]] [] (fun _ _ => rfl)⟩

/-- Claim C6, counterexample.  `raise_for_status` raises only for statuses
in `[400, 600)`, so a final response with the non-2xx status 301 and a
parseable CSV body is accepted: `fetch_csv` returns `True` and stores a
dataset, contradicting "every invocation with a non-2xx status returns
failure and never produces a TabularDataset". -/
theorem C6_counterexample :
    (301 < 200 ∨ 300 ≤ 301) ∧
    fetch_csv (.response 301 (codes ("a\n1\n"))) none =
      (true, some ⟨[codes ("a")], [[codes ("1")]]⟩) := by
  decide

/-- Claim C6, amended.  For every outcome on which the fetch actually takes
an exception path — timeout, connection failure, or a status in
`[400, 600)` rejected by `raise_for_status` — `fetch_csv` returns `False`
and leaves `self.df` untouched, so a dataset unset before the call
remains unset. -/
theorem C6_amended (outcome : HttpOutcome) (df0 : Option Dataset)
    (h : isFetchFailure outcome = true) :
    fetch_csv outcome df0 = (false, df0) := by
  cases outcome with
  | timeout => rfl
  | connectionError => rfl
  | response status body =>
    simp only [isFetchFailure] at h
    simp only [fetch_csv]
    rw [if_pos h]

/-- Claim C6, witness: a timed-out fetch returns failure and the dataset
stays unset. -/
theorem C6_witness : fetch_csv .timeout none = (false, none) :=
  C6_amended .timeout none rfl

/-- Claim C7, counterexample.  Not every Fetcher invocation passes a
bounded timeout: the `requests.get` call of `main.py:66` passes no
`timeout` argument (the `requests` default blocks indefinitely), so the
claim fails on that cited code. -/
theorem C7_counterexample :
    ¬ (fetchTimeout_extractor = some 30 ∧ fetchTimeout_main = some 30) := by
  decide

/-- Claim C7, amended.  The fetch of the improved extractor
(`data_extractor.py:71`) passes `timeout=30`, bounding the HTTP GET at 30
seconds; the legacy fetch of `main.py:66` passes no timeout and may block
indefinitely. -/
theorem C7_amended :
    fetchTimeout_extractor = some 30 ∧ fetchTimeout_main = none := by
  decide

/-- Claim C8.  For every combination of step outcomes: a failed `connect`
ends the run before anything else (no connection was acquired, so nothing
is released); once connected, a failed step prevents every later pipeline
step from running; and the connection is closed exactly once on every
path that acquired it, success included. -/
theorem C8_pipeline (c f t i : Bool) :
    (c = false → mainTrace c f t i = [.connect]) ∧
    (c = false → .fetch ∉ mainTrace c f t i) ∧
    (f = false →
      .createTable ∉ mainTrace c f t i ∧ .bulkInsert ∉ mainTrace c f t i) ∧
    (t = false → .bulkInsert ∉ mainTrace c f t i) ∧
    (c = true → (mainTrace c f t i).count .close = 1) := by
  cases c <;> cases f <;> cases t <;> cases i <;> decide

/-- Claim C8, witness at the outcome "connect succeeds, fetch fails": the
later steps are skipped and the connection is closed exactly once. -/
theorem C8_witness :
    Step.createTable ∉ mainTrace true false true true ∧
    (mainTrace true false true true).count .close = 1 :=
  ⟨((C8_pipeline true false true true).2.2.1 rfl).1,
   (C8_pipeline true false true true).2.2.2.2 rfl⟩

end Backend
